import Mathlib

/-!
Verification of the `ImageCausalModel` core of causal-bert-pytorch
(`src/modelmodule/modelmodule.py`), shallowly embedded over `List ℚ`
tensors. External collaborators (the timm backbone, and the
cross-entropy and softmax-exponential operations of torch) are passed as explicit function
parameters; everything the model itself computes is translated directly
from the Python source.
-/

set_option autoImplicit false

namespace CausalImage

/-! ### Confound encoder

Translation of `_make_confound_vector(self, ids, vocab_size, use_counts=False)`:

    vec  = torch.zeros(ids.shape[0], vocab_size)
    ones = torch.ones_like(ids, dtype=torch.float)
    -- (CUDA branch only moves tensors between devices; value-preserving)
    vec[:, 1] = 0.0
    if not use_counts:
        vec = (vec != 0).float()
    return vec.float()

Note the `ones` tensor is allocated but never scattered into `vec`:
no statement writes the ids into the vector.
-/

/-- One row of `vec[:, 1] = 0.0`: set index 1 of the row to `0`. -/
def setCol1Zero (row : List ℚ) : List ℚ := row.set 1 0

/-- Binarization `(row != 0).float()` of a row: nonzero ↦ 1.0, zero ↦ 0.0. -/
def binarizeRow (row : List ℚ) : List ℚ :=
  row.map (fun x => if x ≠ 0 then (1 : ℚ) else 0)

/-- Translation of `_make_confound_vector`. `ids` is the per-example
confound-id column; `vocab_size` is `num_labels` at the call site. -/
def make_confound_vector (ids : List ℤ) (vocab_size : ℕ)
    (use_counts : Bool := false) : List (List ℚ) :=
  let vec := ids.map (fun _ => List.replicate vocab_size (0 : ℚ))
  let _ones := ids.map (fun _ => (1 : ℚ))
  let vec := vec.map setCol1Zero
  if !use_counts then vec.map binarizeRow else vec

/-! ### Linear layers and the Q heads

`nn.Linear(in, out)` applied to a vector, and the per-arm head
`nn.Sequential(nn.Linear(input_size, 200), nn.ReLU(), nn.Linear(200, num_labels))`.
The weights themselves are external state (initialized by `init_weights`);
the embedding takes them as parameters.
-/

/-- Dot product of a weight row with an input vector. -/
def dot (w x : List ℚ) : ℚ := (List.zipWith (fun a b => a * b) w x).sum

/-- Forward pass of `nn.Linear`: one output per (weight-row, bias) pair. -/
def linearFwd (W : List (List ℚ)) (b : List ℚ) (x : List ℚ) : List ℚ :=
  List.zipWith (fun wRow bi => dot wRow x + bi) W b

/-- Elementwise `nn.ReLU`. -/
def reluVec (x : List ℚ) : List ℚ := x.map (fun v => max v 0)

/-- Parameters of one entry of `self.Q_cls`:
`Linear(input_size, 200) → ReLU → Linear(200, num_labels)`. -/
structure QHead where
  W1 : List (List ℚ)
  b1 : List ℚ
  W2 : List (List ℚ)
  b2 : List ℚ

/-- Forward pass of one Q head. -/
def QHead.fwd (q : QHead) (x : List ℚ) : List ℚ :=
  linearFwd q.W2 q.b2 (reluVec (linearFwd q.W1 q.b1 x))

/-! ### Softmax and column extraction -/

/-- Row softmax `torch.nn.Softmax(dim=1)`, with the exponential supplied as
a parameter `expF` (it lives in torch, outside the repository). -/
def softmaxRow (expF : ℚ → ℚ) (xs : List ℚ) : List ℚ :=
  let s := (xs.map expF).sum
  xs.map (fun x => expF x / s)

/-- Column extraction `m[:, j]`: column `j` of a list of rows. -/
def col (j : ℕ) (rows : List (List ℚ)) : List ℚ :=
  rows.map (fun r => r.getD j 0)

/-! ### Batch, observedness gate, and label masking -/

/-- One batch as unpacked by `images, confounds, treatment, outcome = batch`.
The image type is abstract: the backbone consumes it opaquely. -/
structure Batch (α : Type) where
  images : List α
  confounds : List ℤ
  treatment : List ℤ
  outcome : List ℤ

/-- The batch-level observedness gate `torch.all(outcome != -1)`. -/
def allObserved (outcome : List ℤ) : Bool :=
  outcome.all (fun y => decide (y ≠ -1))

/-- Translation of `(xs == t).nonzero().squeeze()`: the indices at which `xs` equals `t`. -/
def nonzeroIdx (xs : List ℤ) (t : ℤ) : List ℕ :=
  (List.range xs.length).filter (fun i => xs.getD i 0 == t)

/-- Translation of `tensor.scatter(0, idx, v)`: write `v` at every position in `idx`. -/
def scatterConst (xs : List ℤ) (idx : List ℕ) (v : ℤ) : List ℤ :=
  idx.foldl (fun acc i => acc.set i v) xs

/-- Translation of `Y_T1_labels = outcome.clone().scatter(0, T0_indices, -100)` where
`T0_indices = (treatment == 0).nonzero().squeeze()`. -/
def Y_T1_labels (outcome treatment : List ℤ) : List ℤ :=
  scatterConst outcome (nonzeroIdx treatment 0) (-100)

/-- Translation of `Y_T0_labels = outcome.clone().scatter(0, T1_indices, -100)` where
`T1_indices = (treatment == 1).nonzero().squeeze()`. -/
def Y_T0_labels (outcome treatment : List ℤ) : List ℤ :=
  scatterConst outcome (nonzeroIdx treatment 1) (-100)

/-! ### The shared step

Translation of `__share_step`. The backbone (`self.base_model`) and
`CrossEntropyLoss()` are external collaborators, passed as `baseModel`
and `ce`; `ce logits labels` stands for
`CrossEntropyLoss()(logits.view(-1, num_labels), labels.view(-1))`.
-/

/-- Translation of `inputs = torch.cat((features, C), dim=1)` with
`features = self.base_model(images)` and
`C = self._make_confound_vector(confounds.unsqueeze(1), num_labels)`. -/
def jointInputs {α : Type} (baseModel : α → List ℚ) (num_labels : ℕ)
    (images : List α) (confounds : List ℤ) : List (List ℚ) :=
  List.zipWith (fun f c => f ++ c)
    (images.map baseModel)
    (make_confound_vector confounds num_labels)

/-- Translation of `g = self.g_cls(inputs)`. -/
def gLogits {α : Type} (baseModel : α → List ℚ) (num_labels : ℕ)
    (gW : List (List ℚ)) (gB : List ℚ)
    (images : List α) (confounds : List ℤ) : List (List ℚ) :=
  (jointInputs baseModel num_labels images confounds).map (linearFwd gW gB)

/-- Translation of the Q-head applications: `Q_logits_T0` and `Q_logits_T1`
are the two entries of `self.Q_cls` applied to `inputs`. -/
def qLogits {α : Type} (baseModel : α → List ℚ) (num_labels : ℕ)
    (q : QHead) (images : List α) (confounds : List ℤ) : List (List ℚ) :=
  (jointInputs baseModel num_labels images confounds).map q.fwd

/-- The five values returned by `__share_step`. -/
structure StepOutput where
  g_prob : List ℚ
  Q_prob_T0 : List ℚ
  Q_prob_T1 : List ℚ
  g_loss : ℚ
  Q_loss : ℚ

/-- Translation of `__share_step(self, batch, batch_idx)`. -/
def share_step {α : Type} (baseModel : α → List ℚ) (num_labels : ℕ)
    (gW : List (List ℚ)) (gB : List ℚ) (q0 q1 : QHead)
    (ce : List (List ℚ) → List ℤ → ℚ) (expF : ℚ → ℚ)
    (b : Batch α) : StepOutput :=
  let g := gLogits baseModel num_labels gW gB b.images b.confounds
  let g_loss := if allObserved b.outcome then ce g b.treatment else 0
  let Q_logits_T0 := qLogits baseModel num_labels q0 b.images b.confounds
  let Q_logits_T1 := qLogits baseModel num_labels q1 b.images b.confounds
  let Q_loss :=
    if allObserved b.outcome then
      ce Q_logits_T1 (Y_T1_labels b.outcome b.treatment) +
      ce Q_logits_T0 (Y_T0_labels b.outcome b.treatment)
    else 0
  { g_prob := col 1 (g.map (softmaxRow expF))
    Q_prob_T0 := col 1 (Q_logits_T0.map (softmaxRow expF))
    Q_prob_T1 := col 1 (Q_logits_T1.map (softmaxRow expF))
    g_loss := g_loss
    Q_loss := Q_loss }

/-! ### Epoch-level accumulators, epoch ends, ATE, scheduler

The instance attributes `self.Q0s`, `self.Q1s`, `self.losses` mutated by
the Lightning hooks; each hook is embedded as a function from the old
state to the new state together with whatever the hook computes/returns.
-/

/-- The mutable accumulator state of an `ImageCausalModel` instance. -/
structure ModelState where
  Q0s : List ℚ
  Q1s : List ℚ
  losses : List ℚ

/-- Translation of `np.argmax(row)`: the first index attaining the maximum of the row. -/
def npArgmax (row : List ℚ) : ℕ :=
  (List.range row.length).foldl
    (fun best i => if row.getD best 0 < row.getD i 0 then i else best) 0

/-- Translation of `probs = np.array(list(zip(self.Q0s, self.Q1s)))`. -/
def epochProbs (s : ModelState) : List (ℚ × ℚ) := List.zip s.Q0s s.Q1s

/-- Translation of `preds = np.argmax(probs, axis=1)`. -/
def epochPreds (s : ModelState) : List ℕ :=
  (epochProbs s).map (fun p => npArgmax [p.1, p.2])

/-- Translation of `ATE(self, probs)`:
`Q0 = probs[:,0]; Q1 = probs[:,1]; return np.mean(Q0 - Q1)`. -/
def ATE (probs : List (ℚ × ℚ)) : ℚ :=
  let Q0 := probs.map Prod.fst
  let Q1 := probs.map Prod.snd
  (List.zipWith (fun a b => a - b) Q0 Q1).sum / probs.length

/-- Translation of `on_train_epoch_end`: logs `torch.stack(self.losses).mean()` and runs
`self.losses.clear()`. Returns the new state and the logged mean. -/
def on_train_epoch_end (s : ModelState) : ModelState × ℚ :=
  ({ s with losses := [] }, s.losses.sum / s.losses.length)

/-- Translation of `on_validation_epoch_end`: computes `(probs, preds)` from the
accumulators and returns them; the accumulators are not touched. -/
def on_validation_epoch_end (s : ModelState) :
    ModelState × (List (ℚ × ℚ) × List ℕ) :=
  (s, (epochProbs s, epochPreds s))

/-- The dictionary `{"probs": probs, "preds": preds}` returned by
`on_predict_epoch_end`. -/
structure PredictOutput where
  probs : List (ℚ × ℚ)
  preds : List ℕ

/-- Translation of `on_predict_epoch_end`: computes `probs`, `preds` and `ATE(probs)`
(the latter is logged); the accumulators are not touched. -/
def on_predict_epoch_end (s : ModelState) :
    ModelState × PredictOutput × ℚ :=
  (s, ⟨epochProbs s, epochPreds s⟩, ATE (epochProbs s))

/-- The two schedule arguments passed to
`get_linear_schedule_with_warmup` by `configure_optimizers`. -/
structure SchedulerArgs where
  num_warmup_steps : ℕ
  num_training_steps : ℕ

/-- Translation of the schedule construction in `configure_optimizers`:
`num_warmup_steps = int(0.1 * self.total_training_steps)`,
`num_training_steps = self.total_training_steps`. -/
def configure_optimizers (total_training_steps : ℕ) : SchedulerArgs :=
  { num_warmup_steps := ⌊(1 / 10 : ℚ) * total_training_steps⌋₊
    num_training_steps := total_training_steps }

/-! ## Helper lemmas -/

lemma setCol1Zero_replicate_zero (n : ℕ) :
    setCol1Zero (List.replicate n (0 : ℚ)) = List.replicate n 0 := by
  unfold setCol1Zero
  induction n with
  | zero => rfl
  | succ m _ =>
    cases m with
    | zero => rfl
    | succ k => simp [List.replicate_succ, List.set_cons_succ]

lemma binarizeRow_replicate_zero (n : ℕ) :
    binarizeRow (List.replicate n (0 : ℚ)) = List.replicate n 0 := by
  simp [binarizeRow, List.map_replicate]

/-- The confound vector is always the all-zero matrix: the ids are never
written into it. -/
lemma make_confound_vector_eq_zero (ids : List ℤ) (vocab_size : ℕ)
    (use_counts : Bool) :
    make_confound_vector ids vocab_size use_counts =
      List.replicate ids.length (List.replicate vocab_size 0) := by
  unfold make_confound_vector
  cases use_counts with
  | false =>
    simp [List.map_map, Function.comp, setCol1Zero_replicate_zero,
      binarizeRow_replicate_zero, List.map_const]
  | true =>
    simp [List.map_map, Function.comp, setCol1Zero_replicate_zero,
      List.map_const]

lemma allObserved_iff (ys : List ℤ) :
    allObserved ys = true ↔ ∀ y ∈ ys, y ≠ -1 := by
  simp [allObserved]

lemma share_step_g_loss {α : Type} (baseModel : α → List ℚ) (num_labels : ℕ)
    (gW : List (List ℚ)) (gB : List ℚ) (q0 q1 : QHead)
    (ce : List (List ℚ) → List ℤ → ℚ) (expF : ℚ → ℚ) (b : Batch α) :
    (share_step baseModel num_labels gW gB q0 q1 ce expF b).g_loss =
      if allObserved b.outcome then
        ce (gLogits baseModel num_labels gW gB b.images b.confounds) b.treatment
      else 0 := rfl

lemma share_step_Q_loss {α : Type} (baseModel : α → List ℚ) (num_labels : ℕ)
    (gW : List (List ℚ)) (gB : List ℚ) (q0 q1 : QHead)
    (ce : List (List ℚ) → List ℤ → ℚ) (expF : ℚ → ℚ) (b : Batch α) :
    (share_step baseModel num_labels gW gB q0 q1 ce expF b).Q_loss =
      if allObserved b.outcome then
        ce (qLogits baseModel num_labels q1 b.images b.confounds)
            (Y_T1_labels b.outcome b.treatment) +
        ce (qLogits baseModel num_labels q0 b.images b.confounds)
            (Y_T0_labels b.outcome b.treatment)
      else 0 := rfl

/-! ## Claim theorems -/

/-- Claim C1: `_make_confound_vector` returns the all-zero matrix of shape
`[batch, width]` for every input tensor of confound ids and every width;
in particular its result depends only on `ids.length`, never on the id
values — the ids are never written into the vector. -/
theorem confound_vector_is_all_zero (ids : List ℤ) (vocab_size : ℕ)
    (use_counts : Bool) :
    make_confound_vector ids vocab_size use_counts =
      List.replicate ids.length (List.replicate vocab_size 0) :=
  make_confound_vector_eq_zero ids vocab_size use_counts

/-- Claim C7: for every batch of confound ids and every width
`num_labels`, column 1 of the confound vector is `0` for every example,
unconditionally and independently of the input ids. -/
theorem confound_vector_col1_is_zero (ids : List ℤ) (vocab_size : ℕ)
    (use_counts : Bool) :
    col 1 (make_confound_vector ids vocab_size use_counts) =
      List.replicate ids.length 0 := by
  rw [make_confound_vector_eq_zero]
  simp [col, List.map_replicate, List.getD]

/-- Claim C8: the schedule passed to `get_linear_schedule_with_warmup`
has `num_warmup_steps` equal to 10% of the configured total training
steps truncated to an integer (`int(0.1 * total_training_steps)`), and
`num_training_steps` equal to the externally supplied
`total_training_steps` constant. -/
theorem configure_optimizers_schedule (total_training_steps : ℕ) :
    (configure_optimizers total_training_steps).num_warmup_steps =
        total_training_steps / 10 ∧
    (configure_optimizers total_training_steps).num_training_steps =
        total_training_steps := by
  refine ⟨?_, rfl⟩
  show ⌊(1 / 10 : ℚ) * total_training_steps⌋₊ = total_training_steps / 10
  rw [one_div, inv_mul_eq_div, show (10 : ℚ) = ((10 : ℕ) : ℚ) by norm_num,
    Nat.floor_div_nat, Nat.floor_natCast]

/-- Claim C4: on a non-empty accumulated probs array, `ATE` equals the
mean over examples of `Q_prob_T0 - Q_prob_T1` (column 0 minus column 1);
at the accumulated pairs `Q0s = [0.8, 0.6]`, `Q1s = [0.3, 0.5]` the
result is `mean([0.5, 0.1]) = 0.3`. -/
theorem ATE_is_mean_of_differences (probs : List (ℚ × ℚ))
    (_hne : probs ≠ []) :
    ATE probs = (probs.map (fun p => p.1 - p.2)).sum / probs.length ∧
    ATE [((4 : ℚ)/5, 3/10), (3/5, 1/2)] = 3/10 := by
  constructor
  · show (List.zipWith (fun a b => a - b) (probs.map Prod.fst)
        (probs.map Prod.snd)).sum / (probs.length : ℚ) = _
    rw [List.zipWith_map, List.zipWith_same]
  · norm_num [ATE]

/-- Witness for C4 at the accumulated pairs from the spec. -/
theorem ATE_is_mean_of_differences_witness :
    ATE [((4 : ℚ)/5, 3/10), (3/5, 1/2)] =
      ([((4 : ℚ)/5, 3/10), (3/5, 1/2)].map (fun p => p.1 - p.2)).sum / 2 ∧
    ATE [((4 : ℚ)/5, 3/10), (3/5, 1/2)] = 3/10 :=
  ATE_is_mean_of_differences [((4 : ℚ)/5, 3/10), (3/5, 1/2)] (by decide)

/-- Claim C2: for every non-empty batch, `g_loss` and `Q_loss` are the
cross-entropy values exactly when the outcome of every example differs from
`-1`, and are exactly `0` as soon as some outcome equals `-1` (the gate
is batch-level). -/
theorem loss_gate_batch_level {α : Type} (baseModel : α → List ℚ)
    (num_labels : ℕ) (gW : List (List ℚ)) (gB : List ℚ) (q0 q1 : QHead)
    (ce : List (List ℚ) → List ℤ → ℚ) (expF : ℚ → ℚ) (b : Batch α)
    (_hne : b.outcome ≠ []) :
    ((∀ y ∈ b.outcome, y ≠ -1) →
      (share_step baseModel num_labels gW gB q0 q1 ce expF b).g_loss =
        ce (gLogits baseModel num_labels gW gB b.images b.confounds)
          b.treatment ∧
      (share_step baseModel num_labels gW gB q0 q1 ce expF b).Q_loss =
        ce (qLogits baseModel num_labels q1 b.images b.confounds)
            (Y_T1_labels b.outcome b.treatment) +
        ce (qLogits baseModel num_labels q0 b.images b.confounds)
            (Y_T0_labels b.outcome b.treatment)) ∧
    ((-1 : ℤ) ∈ b.outcome →
      (share_step baseModel num_labels gW gB q0 q1 ce expF b).g_loss = 0 ∧
      (share_step baseModel num_labels gW gB q0 q1 ce expF b).Q_loss = 0) := by
  constructor
  · intro h
    have hg : allObserved b.outcome = true := (allObserved_iff b.outcome).2 h
    rw [share_step_g_loss, share_step_Q_loss, hg]
    exact ⟨rfl, rfl⟩
  · intro h
    have hg : allObserved b.outcome = false :=
      List.all_eq_false.2 ⟨-1, h, by simp⟩
    rw [share_step_g_loss, share_step_Q_loss, hg]
    exact ⟨rfl, rfl⟩

/-- Witness for C2: a fully observed singleton batch gets the
cross-entropy value (here the constant `7`), and a batch whose outcome is
`-1` gets both losses exactly `0`. -/
theorem loss_gate_batch_level_witness :
    (share_step (fun _ : Unit => ([] : List ℚ)) 2 [[1, 0], [0, 1]] [0, 0]
        ⟨[[1, 0]], [0], [[1], [2]], [0, 0]⟩ ⟨[[1, 0]], [0], [[1], [2]], [0, 0]⟩
        (fun _ _ => (7 : ℚ)) (fun _ => 1) ⟨[()], [5], [1], [1]⟩).g_loss = 7 ∧
    (share_step (fun _ : Unit => ([] : List ℚ)) 2 [[1, 0], [0, 1]] [0, 0]
        ⟨[[1, 0]], [0], [[1], [2]], [0, 0]⟩ ⟨[[1, 0]], [0], [[1], [2]], [0, 0]⟩
        (fun _ _ => (7 : ℚ)) (fun _ => 1) ⟨[()], [5], [1], [-1]⟩).g_loss = 0 ∧
    (share_step (fun _ : Unit => ([] : List ℚ)) 2 [[1, 0], [0, 1]] [0, 0]
        ⟨[[1, 0]], [0], [[1], [2]], [0, 0]⟩ ⟨[[1, 0]], [0], [[1], [2]], [0, 0]⟩
        (fun _ _ => (7 : ℚ)) (fun _ => 1) ⟨[()], [5], [1], [-1]⟩).Q_loss = 0 :=
  ⟨((loss_gate_batch_level _ _ _ _ _ _ _ _ _ (by decide)).1 (by decide)).1,
   ((loss_gate_batch_level _ _ _ _ _ _ _ _ _ (by decide)).2 (by decide)).1,
   ((loss_gate_batch_level _ _ _ _ _ _ _ _ _ (by decide)).2 (by decide)).2⟩

/-- Claim C10: on a batch with zero examples the gate
`torch.all(outcome != -1)` holds vacuously, so `__share_step` takes the
loss-computation branch (cross-entropy on the empty inputs), not the zero
short-circuit; the short-circuit is reachable only for non-empty batches
containing an outcome equal to `-1`. -/
theorem empty_batch_takes_loss_branch {α : Type} (baseModel : α → List ℚ)
    (num_labels : ℕ) (gW : List (List ℚ)) (gB : List ℚ) (q0 q1 : QHead)
    (ce : List (List ℚ) → List ℤ → ℚ) (expF : ℚ → ℚ)
    (images : List α) (confounds treatment : List ℤ) :
    (share_step baseModel num_labels gW gB q0 q1 ce expF
        ⟨images, confounds, treatment, []⟩).g_loss =
      ce (gLogits baseModel num_labels gW gB images confounds) treatment ∧
    (share_step baseModel num_labels gW gB q0 q1 ce expF
        ⟨images, confounds, treatment, []⟩).Q_loss =
      ce (qLogits baseModel num_labels q1 images confounds)
          (Y_T1_labels [] treatment) +
      ce (qLogits baseModel num_labels q0 images confounds)
          (Y_T0_labels [] treatment) ∧
    (∀ outcome : List ℤ, allObserved outcome = false →
      outcome ≠ [] ∧ (-1 : ℤ) ∈ outcome) := by
  refine ⟨rfl, rfl, ?_⟩
  intro outcome h
  obtain ⟨y, hy, hdec⟩ := List.all_eq_false.1 h
  have hy1 : y = -1 := by simpa using hdec
  exact ⟨List.ne_nil_of_mem hy, hy1 ▸ hy⟩

/-- Witness for C10: the empty batch takes the cross-entropy branch (the
constant `5` here), and a concrete gate-failing outcome list is non-empty
and contains `-1`. -/
theorem empty_batch_takes_loss_branch_witness :
    (share_step (fun _ : Unit => ([] : List ℚ)) 2 [[1, 0], [0, 1]] [0, 0]
        ⟨[[1, 0]], [0], [[1], [2]], [0, 0]⟩ ⟨[[1, 0]], [0], [[1], [2]], [0, 0]⟩
        (fun _ _ => (5 : ℚ)) (fun _ => 1) ⟨[], [], [], []⟩).g_loss = 5 ∧
    (([(-1 : ℤ)] : List ℤ) ≠ [] ∧ (-1 : ℤ) ∈ ([(-1 : ℤ)] : List ℤ)) :=
  ⟨(empty_batch_takes_loss_branch _ _ _ _ _ _ _ _ _ _ _).1,
   (empty_batch_takes_loss_branch (fun _ : Unit => ([] : List ℚ)) 2
      [[1, 0], [0, 1]] [0, 0]
      ⟨[[1, 0]], [0], [[1], [2]], [0, 0]⟩ ⟨[[1, 0]], [0], [[1], [2]], [0, 0]⟩
      (fun _ _ => (5 : ℚ)) (fun _ => 1) [] [] []).2.2 [-1] (by decide)⟩

lemma npArgmax_pair (a b : ℚ) :
    npArgmax [a, b] = if a < b then 1 else 0 := by
  simp [npArgmax, List.range_succ, List.getD]

/-- Claim C5 as amended: `on_train_epoch_end` clears `losses` (and leaves
`Q0s`/`Q1s` alone), but `on_validation_epoch_end` and
`on_predict_epoch_end` leave the whole state unchanged — `Q0s` and `Q1s`
are never cleared at an evaluation/prediction epoch end. -/
theorem epoch_end_accumulator_state (s : ModelState) :
    (on_train_epoch_end s).1.losses = [] ∧
    (on_train_epoch_end s).1.Q0s = s.Q0s ∧
    (on_train_epoch_end s).1.Q1s = s.Q1s ∧
    (on_validation_epoch_end s).1 = s ∧
    (on_predict_epoch_end s).1 = s := by
  exact ⟨rfl, rfl, rfl, rfl, rfl⟩

/-- Counterexample to C5 as stated: at the concrete accumulator state
`Q0s = [1], Q1s = [2], losses = []` neither `on_predict_epoch_end` nor
`on_validation_epoch_end` leaves `Q0s`/`Q1s` empty. -/
theorem epoch_end_clear_counterexample :
    ¬ ((on_predict_epoch_end ⟨[1], [2], []⟩).1.Q0s = [] ∧
       (on_predict_epoch_end ⟨[1], [2], []⟩).1.Q1s = []) ∧
    ¬ ((on_validation_epoch_end ⟨[1], [2], []⟩).1.Q0s = [] ∧
       (on_validation_epoch_end ⟨[1], [2], []⟩).1.Q1s = []) := by
  constructor <;> rintro ⟨h, -⟩ <;> exact List.cons_ne_nil _ _ h

/-- Claim C6 as amended: the prediction epoch result has `probs` with
column 0 the accumulated `Q_prob_T0` sequence and column 1 the
accumulated `Q_prob_T1` sequence, in accumulation order, and
`preds[i] = 1` exactly when the T1-probability is strictly larger than
the T0-probability, else `preds[i] = 0` — on a tie `np.argmax` returns
the first maximum, index 0. -/
theorem predict_epoch_result (s : ModelState)
    (hlen : s.Q0s.length = s.Q1s.length) :
    (on_predict_epoch_end s).2.1.probs.map Prod.fst = s.Q0s ∧
    (on_predict_epoch_end s).2.1.probs.map Prod.snd = s.Q1s ∧
    (on_predict_epoch_end s).2.1.preds =
      List.zipWith (fun a b : ℚ => if a < b then 1 else 0) s.Q0s s.Q1s := by
  refine ⟨List.map_fst_zip _ _ (le_of_eq hlen),
          List.map_snd_zip _ _ (le_of_eq hlen.symm), ?_⟩
  show (epochProbs s).map (fun p => npArgmax [p.1, p.2]) = _
  rw [epochProbs, List.zip_eq_zipWith, List.map_zipWith]
  simp only [npArgmax_pair]

/-- Witness for C6 (amended) at `Q0s = [4/5, 3/5]`, `Q1s = [3/10, 1/2]`. -/
theorem predict_epoch_result_witness :
    (on_predict_epoch_end ⟨[(4 : ℚ)/5, 3/5], [(3 : ℚ)/10, 1/2], []⟩).2.1.probs.map
        Prod.fst = [(4 : ℚ)/5, 3/5] ∧
    (on_predict_epoch_end ⟨[(4 : ℚ)/5, 3/5], [(3 : ℚ)/10, 1/2], []⟩).2.1.probs.map
        Prod.snd = [(3 : ℚ)/10, 1/2] ∧
    (on_predict_epoch_end ⟨[(4 : ℚ)/5, 3/5], [(3 : ℚ)/10, 1/2], []⟩).2.1.preds =
      List.zipWith (fun a b : ℚ => if a < b then 1 else 0)
        [(4 : ℚ)/5, 3/5] [(3 : ℚ)/10, 1/2] :=
  predict_epoch_result ⟨[(4 : ℚ)/5, 3/5], [(3 : ℚ)/10, 1/2], []⟩ rfl

/-- Counterexample to C6 as stated: at the tie `Q0s = [1/2], Q1s = [1/2]`
the T0-probability is not larger, so the rule stated by the claim
("0 if the T0-probability is larger and 1 otherwise") predicts `[1]`, but
`np.argmax` returns the first maximum and the code produces `[0]`. -/
theorem predict_preds_tie_counterexample :
    (on_predict_epoch_end ⟨[(1 : ℚ)/2], [(1 : ℚ)/2], []⟩).2.1.preds = [0] ∧
    (if ((1 : ℚ)/2) > ((1 : ℚ)/2) then (0 : ℕ) else 1) = 1 ∧
    ([(0 : ℕ)] : List ℕ) ≠ [1] := by
  refine ⟨?_, by norm_num, by decide⟩
  show [npArgmax [(1 : ℚ)/2, (1 : ℚ)/2]] = [0]
  rw [npArgmax_pair]
  norm_num

lemma getD_set (xs : List ℤ) (j : ℕ) (v : ℤ) (i : ℕ) (hi : i < xs.length) :
    (xs.set j v).getD i 0 = if j = i then v else xs.getD i 0 := by
  simp only [List.getD_eq_getElem?_getD, List.getElem?_set]
  by_cases h : j = i
  · subst h
    simp [hi]
  · simp [h]

lemma scatterConst_length (idx : List ℕ) (xs : List ℤ) (v : ℤ) :
    (scatterConst xs idx v).length = xs.length := by
  induction idx generalizing xs with
  | nil => rfl
  | cons j rest ih =>
    show (scatterConst (xs.set j v) rest v).length = xs.length
    rw [ih]
    simp

lemma scatterConst_getD (idx : List ℕ) (xs : List ℤ) (v : ℤ) (i : ℕ)
    (hi : i < xs.length) :
    (scatterConst xs idx v).getD i 0 =
      if i ∈ idx then v else xs.getD i 0 := by
  induction idx generalizing xs with
  | nil => simp [scatterConst]
  | cons j rest ih =>
    have h1 : scatterConst xs (j :: rest) v = scatterConst (xs.set j v) rest v :=
      rfl
    rw [h1, ih (xs.set j v) (by simpa using hi), getD_set xs j v i hi]
    by_cases hmem : i ∈ rest
    · simp [hmem, List.mem_cons]
    · by_cases hji : j = i
      · simp [hmem, hji, List.mem_cons]
      · simp [hmem, hji, List.mem_cons, Ne.symm hji]

lemma mem_nonzeroIdx {xs : List ℤ} {t : ℤ} {i : ℕ} :
    i ∈ nonzeroIdx xs t ↔ i < xs.length ∧ xs.getD i 0 = t := by
  simp [nonzeroIdx, List.mem_filter, List.mem_range]

lemma masked_getD (outcome treatment : List ℤ) (t : ℤ)
    (hlen : treatment.length = outcome.length) (i : ℕ)
    (hi : i < outcome.length) :
    (scatterConst outcome (nonzeroIdx treatment t) (-100)).getD i 0 =
      if treatment.getD i 0 = t then -100 else outcome.getD i 0 := by
  rw [scatterConst_getD _ _ _ _ hi]
  by_cases h : treatment.getD i 0 = t
  · rw [if_pos (mem_nonzeroIdx.2 ⟨hlen ▸ hi, h⟩), if_pos h]
  · rw [if_neg (fun hm => h (mem_nonzeroIdx.1 hm).2), if_neg h]

/-- Claim C3: on a fully observed batch with binary treatment the masked
labels partition the examples: `Y_T1[i] = -100` when `treatment[i] = 0`
and `Y_T1[i] = outcome[i]` otherwise, symmetrically
`Y_T0[i] = -100` when `treatment[i] = 1` and `Y_T0[i] = outcome[i]`
otherwise; hence every example carries a non-ignored label in exactly one
of `Y_T0`/`Y_T1`, the one matching its actual treatment arm. -/
theorem masked_labels_partition (outcome treatment : List ℤ)
    (hlen : treatment.length = outcome.length) (i : ℕ)
    (hi : i < outcome.length)
    (htreat : treatment.getD i 0 = 0 ∨ treatment.getD i 0 = 1)
    (hout : outcome.getD i 0 = 0 ∨ outcome.getD i 0 = 1) :
    ((Y_T1_labels outcome treatment).getD i 0 =
        if treatment.getD i 0 = 0 then -100 else outcome.getD i 0) ∧
    ((Y_T0_labels outcome treatment).getD i 0 =
        if treatment.getD i 0 = 1 then -100 else outcome.getD i 0) ∧
    (((Y_T1_labels outcome treatment).getD i 0 ≠ -100) ↔
        ((Y_T0_labels outcome treatment).getD i 0 = -100)) := by
  have h1 := masked_getD outcome treatment 0 hlen i hi
  have h0 := masked_getD outcome treatment 1 hlen i hi
  refine ⟨h1, h0, ?_⟩
  rw [Y_T1_labels, Y_T0_labels, h1, h0]
  rcases htreat with ht | ht <;> rcases hout with ho | ho <;>
    rw [ht, ho] <;> decide

/-- Witness for C3 at `outcome = [1, 0]`, `treatment = [0, 1]`,
example `i = 0`: the arm-1 label is masked to `-100` and the arm-0 label
keeps the outcome `1`. -/
theorem masked_labels_partition_witness :
    ((Y_T1_labels [1, 0] [0, 1]).getD 0 0 = -100) ∧
    ((Y_T0_labels [1, 0] [0, 1]).getD 0 0 = 1) ∧
    (((Y_T1_labels [1, 0] [0, 1]).getD 0 0 ≠ -100) ↔
        ((Y_T0_labels [1, 0] [0, 1]).getD 0 0 = -100)) := by
  have h := masked_labels_partition [1, 0] [0, 1] rfl 0 (by decide)
    (by decide) (by decide)
  exact ⟨h.1.trans (by decide), h.2.1.trans (by decide), h.2.2⟩

lemma linearFwd_length (W : List (List ℚ)) (b x : List ℚ) :
    (linearFwd W b x).length = min W.length b.length := by
  simp [linearFwd]

lemma softmaxRow_length (expF : ℚ → ℚ) (xs : List ℚ) :
    (softmaxRow expF xs).length = xs.length := by
  simp [softmaxRow]

lemma QHead.fwd_length (q : QHead) (x : List ℚ) :
    (q.fwd x).length = min q.W2.length q.b2.length := by
  simp [QHead.fwd, linearFwd_length]

lemma getElem?_one_isSome_of_length {r : List ℚ} (h : 1 < r.length) :
    (r[1]?).isSome = true := by
  rw [List.getElem?_eq_getElem h]
  rfl

/-- Claim C9: under the configured precondition `2 ≤ num_labels` (with
the heads shaped as constructed in `__init__`: `g_cls` and the second
`Q_cls` layers have `num_labels` output rows), the softmax outputs over
the class dimension have at least two columns, so taking column index 1
for `g_prob`, `Q_prob_T0` and `Q_prob_T1` is always in bounds. -/
theorem softmax_col1_in_bounds {α : Type} (baseModel : α → List ℚ)
    (num_labels : ℕ) (gW : List (List ℚ)) (gB : List ℚ) (q0 q1 : QHead)
    (expF : ℚ → ℚ) (images : List α) (confounds : List ℤ)
    (h2 : 2 ≤ num_labels)
    (hgW : gW.length = num_labels) (hgB : gB.length = num_labels)
    (hq0W : q0.W2.length = num_labels) (hq0b : q0.b2.length = num_labels)
    (hq1W : q1.W2.length = num_labels) (hq1b : q1.b2.length = num_labels) :
    (∀ r ∈ (gLogits baseModel num_labels gW gB images confounds).map
        (softmaxRow expF), (r[1]?).isSome = true) ∧
    (∀ r ∈ (qLogits baseModel num_labels q0 images confounds).map
        (softmaxRow expF), (r[1]?).isSome = true) ∧
    (∀ r ∈ (qLogits baseModel num_labels q1 images confounds).map
        (softmaxRow expF), (r[1]?).isSome = true) := by
  refine ⟨?_, ?_, ?_⟩ <;> intro r hr <;>
    obtain ⟨l, hl, rfl⟩ := List.mem_map.1 hr <;>
    apply getElem?_one_isSome_of_length <;> rw [softmaxRow_length]
  · obtain ⟨x, -, rfl⟩ := List.mem_map.1 hl
    rw [linearFwd_length, hgW, hgB, min_self]
    omega
  · obtain ⟨x, -, rfl⟩ := List.mem_map.1 hl
    rw [QHead.fwd_length, hq0W, hq0b, min_self]
    omega
  · obtain ⟨x, -, rfl⟩ := List.mem_map.1 hl
    rw [QHead.fwd_length, hq1W, hq1b, min_self]
    omega

/-- Witness for C9 with `num_labels = 2` and concretely shaped heads:
column index 1 of the softmaxed g-logits row exists. -/
theorem softmax_col1_in_bounds_witness :
    ((softmaxRow (fun _ => (1 : ℚ))
        (linearFwd [[1, 0], [0, 1]] [0, 0]
          (([] : List ℚ) ++ [0, 0])))[1]?).isSome = true :=
  (softmax_col1_in_bounds (fun _ : Unit => ([] : List ℚ)) 2
      [[1, 0], [0, 1]] [0, 0]
      ⟨[[1, 0]], [0], [[1], [2]], [0, 0]⟩ ⟨[[1, 0]], [0], [[1], [2]], [0, 0]⟩
      (fun _ => 1) [()] [5]
      (by decide) rfl rfl rfl rfl rfl rfl).1 _
    (List.mem_map_of_mem _ (List.mem_map_of_mem _ (by decide)))

end CausalImage
